import Mathlib

/-!
Verification development for a cross-chain token transfer relay.

This file gives a shallow embedding of the chain registry
(`src/Backend/ccip-backend/src/config/ccipConfig.ts`), the transfer
dispatcher (`src/Backend/ccip-backend/src/services/ccipService.ts`),
the frontend configuration helpers (`Frontend/src/config/ccipConfig.ts`)
and the frontend transfer service
(`src/Frontend/src/services/ccipService.ts`), and proves or refutes the
specified properties about them.

Conventions of the embedding:
* machine integers and JS bigints are `Nat` (no overflow arises in the
  modelled code paths);
* fallible TypeScript code (functions that can throw) returns
  `Except String`;
* byte buffers (`Uint8Array`, ethers byte strings) are `List Nat`
  with every element < 256;
* external collaborators (wallet loading, RPC fee quote, transaction
  submission, confirmation wait, `Math.random`, `ethers.isAddress`) are
  explicit parameters collected in `ExecEnv`, so that a run of the
  dispatcher is a pure function of the request and of the collaborator
  outcomes, and the network calls it issues are returned as a trace.
-/

/-- JavaScript `a || b` on an optional string: `undefined` and the empty
string are falsy, any other string is returned as is. -/
def jsOr (o : Option String) (d : String) : String :=
  match o with
  | none => d
  | some s => if s = "" then d else s

/-- The `ChainId` enum of `ccipConfig.ts`; the enum values are the
kebab-case strings returned by `chainIdString`. -/
inductive ChainId
  | ethereumSepolia
  | baseSepolia
  | optimismSepolia
  | bscTestnet
  | arbitrumSepolia
  | solanaDevnet
  | sonicBlaze
deriving DecidableEq, Repr

/-- The string value of a `ChainId` enum member (used by template
interpolation in error messages). -/
def chainIdString : ChainId → String
  | .ethereumSepolia => "ethereum-sepolia"
  | .baseSepolia => "base-sepolia"
  | .optimismSepolia => "optimism-sepolia"
  | .bscTestnet => "bsc-testnet"
  | .arbitrumSepolia => "arbitrum-sepolia"
  | .solanaDevnet => "solana-devnet"
  | .sonicBlaze => "sonic-blaze"

/-- `CHAIN_SELECTORS` of `ccipConfig.ts`. -/
def CHAIN_SELECTORS : ChainId → Nat
  | .ethereumSepolia => 16015286601757825753
  | .baseSepolia => 10344971235874465080
  | .optimismSepolia => 5224473277236331295
  | .bscTestnet => 13264668187771770619
  | .arbitrumSepolia => 3478487238524512106
  | .solanaDevnet => 16423721717087811551
  | .sonicBlaze => 3676871237479449268

/-- The `process.env` variables read by the backend configuration
module; `none` models an unset variable. -/
structure EnvVars where
  ethereumSepoliaRpcUrl : Option String := none
  baseSepoliaRpcUrl : Option String := none
  optimismSepoliaRpcUrl : Option String := none
  bscTestnetRpcUrl : Option String := none
  arbitrumSepoliaRpcUrl : Option String := none
  sonicBlazeRpcUrl : Option String := none
  solanaRpcUrl : Option String := none
deriving DecidableEq, Repr

/-- An `EnvVars` with every variable unset. -/
def emptyEnvVars : EnvVars := {}

/-- The `EVMChainConfig` interface of the backend `ccipConfig.ts`. -/
structure EVMChainConfig where
  id : ChainId
  name : String
  rpcUrl : String
  chainId : Nat
  chainSelector : Nat
  routerAddress : String
  tokenAdminRegistryAddress : String
  bnmTokenAddress : String
  faucetAddress : Option String
  linkTokenAddress : String
  wrappedNativeAddress : String
  explorerBaseUrl : String
  confirmations : Option Nat
deriving DecidableEq, Repr

/-- The `SVMChainConfig` interface of the backend `ccipConfig.ts`.
Note that it has no `chainSelector` field. -/
structure SVMChainConfig where
  id : ChainId
  name : String
  rpcUrl : String
  routerProgramId : String
  feeQuoterProgramId : String
  rmnRemoteProgramId : String
  bnmTokenMint : String
  linkTokenMint : String
  wrappedNativeMint : String
  explorerUrl : String
deriving DecidableEq, Repr

namespace Backend

/-- The `EVM_CONFIGS` table of the backend `ccipConfig.ts`.  Each
`rpcUrl` is `process.env.X || ""`, so a missing environment variable
silently defaults to the empty string. -/
def EVM_CONFIGS (env : EnvVars) : ChainId → Option EVMChainConfig
  | .ethereumSepolia => some
    { id := .ethereumSepolia
      name := "Ethereum Sepolia"
      rpcUrl := jsOr env.ethereumSepoliaRpcUrl ""
      chainId := 11155111
      chainSelector := CHAIN_SELECTORS .ethereumSepolia
      routerAddress := "0x0BF3dE8c5D3e8A2B34D2BEeB17ABfCeBaf363A59"
      tokenAdminRegistryAddress := "0x95F29FEE11c5C55d26cCcf1DB6772DE953B37B82"
      bnmTokenAddress := "0xFd57b4ddBf88a4e07fF4e34C487b99af2Fe82a05"
      faucetAddress := some "0x12B0a29ac7dF641e480D195aD79BC1ae2c0B9BcA"
      linkTokenAddress := "0x779877A7B0D9E8603169DdbD7836e478b4624789"
      wrappedNativeAddress := "0x097D90c9d3E0B50Ca60e1ae45F6A81010f9FB534"
      explorerBaseUrl := "https://sepolia.etherscan.io/"
      confirmations := some 3 }
  | .baseSepolia => some
    { id := .baseSepolia
      name := "Base Sepolia"
      rpcUrl := jsOr env.baseSepoliaRpcUrl ""
      chainId := 84532
      chainSelector := CHAIN_SELECTORS .baseSepolia
      routerAddress := "0xD3b06cEbF099CE7DA4AcCf578aaebFDBd6e88a93"
      tokenAdminRegistryAddress := "0x736D0bBb318c1B27Ff686cd19804094E66250e17"
      bnmTokenAddress := "0x88A2d74F47a237a62e7A51cdDa67270CE381555e"
      faucetAddress := some ""
      linkTokenAddress := "0xE4aB69C077896252FAFBD49EFD26B5D171A32410"
      wrappedNativeAddress := "0x4200000000000000000000000000000000000006"
      explorerBaseUrl := "https://sepolia.basescan.org/"
      confirmations := some 3 }
  | .optimismSepolia => some
    { id := .optimismSepolia
      name := "Optimism Sepolia"
      rpcUrl := jsOr env.optimismSepoliaRpcUrl ""
      chainId := 11155420
      chainSelector := CHAIN_SELECTORS .optimismSepolia
      routerAddress := "0x114A20A10b43D4115e5aeef7345a1A71d2a60C57"
      tokenAdminRegistryAddress := "0x1d702b1FA12F347f0921C722f9D9166F00DEB67A"
      bnmTokenAddress := "0x8aF4204e30565DF93352fE8E1De78925F6664dA7"
      faucetAddress := some ""
      linkTokenAddress := "0xE4aB69C077896252FAFBD49EFD26B5D171A32410"
      wrappedNativeAddress := "0x4200000000000000000000000000000000000006"
      explorerBaseUrl := "sepolia-optimism.etherscan.io/"
      confirmations := some 3 }
  | .bscTestnet => some
    { id := .bscTestnet
      name := "BSC Testnet"
      rpcUrl := jsOr env.bscTestnetRpcUrl ""
      chainId := 97
      chainSelector := CHAIN_SELECTORS .bscTestnet
      routerAddress := "0xE1053aE1857476f36A3C62580FF9b016E8EE8F6f"
      tokenAdminRegistryAddress := "0xF8f2A4466039Ac8adf9944fD67DBb3bb13888f2B"
      bnmTokenAddress := "0xbFA2ACd33ED6EEc0ed3Cc06bF1ac38d22b36B9e9"
      faucetAddress := some ""
      linkTokenAddress := "0x84b9B910527Ad5C03A9Ca831909E21e236EA7b06"
      wrappedNativeAddress := "0xae13d989daC2f0dEbFf460aC112a837C89BAa7cd"
      explorerBaseUrl := "https://testnet.bscscan.com/"
      confirmations := some 3 }
  | .arbitrumSepolia => some
    { id := .arbitrumSepolia
      name := "Arbitrum Sepolia"
      rpcUrl := jsOr env.arbitrumSepoliaRpcUrl ""
      chainId := 421614
      chainSelector := CHAIN_SELECTORS .arbitrumSepolia
      routerAddress := "0x2a9C5afB0d0e4BAb2BCdaE109EC4b0c4Be15a165"
      tokenAdminRegistryAddress := "0x8126bE56454B628a88C17849B9ED99dd5a11Bd2f"
      bnmTokenAddress := "0xA8C0c11bf64AF62CDCA6f93D3769B88BdD7cb93D"
      faucetAddress := some ""
      linkTokenAddress := "0xb1D4538B4571d411F07960EF2838Ce337FE1E80E"
      wrappedNativeAddress := "0xE591bf0A0CF924A0674d7792db046B23CEbF5f34"
      explorerBaseUrl := "https://sepolia.arbiscan.io/"
      confirmations := some 3 }
  | .sonicBlaze => some
    { id := .sonicBlaze
      name := "Sonic Blaze"
      rpcUrl := jsOr env.sonicBlazeRpcUrl ""
      chainId := 57054
      chainSelector := CHAIN_SELECTORS .sonicBlaze
      routerAddress := "0x2fBd4659774D468Db5ca5bacE37869905d8EfA34"
      tokenAdminRegistryAddress := "0xB87d268E7E5d921c72d1D999fa6a2Bfc6A5dBC5C"
      bnmTokenAddress := "0x230c46b9a7c8929A80863bDe89082B372a4c7A99"
      faucetAddress := some ""
      linkTokenAddress := "0xd8C1eEE32341240A62eC8BC9988320bcC13c8580"
      wrappedNativeAddress := "0x917FE4b784d1895187Df169aeCc687C03ba12662"
      explorerBaseUrl := "https://testnet.sonicscan.org/"
      confirmations := some 3 }
  | .solanaDevnet => none

/-- `getEVMConfig` of the backend `ccipConfig.ts`. -/
def getEVMConfig (env : EnvVars) (chainId : ChainId) : Except String EVMChainConfig :=
  match EVM_CONFIGS env chainId with
  | some config => .ok config
  | none => .error ("Unsupported or unconfigured EVM chain ID: " ++ chainIdString chainId)

/-- The `SVM_CONFIGS` entry for Solana Devnet of the backend
`ccipConfig.ts`; `rpcUrl` is `process.env.SOLANA_RPC_URL || default`. -/
def SVM_CONFIGS (env : EnvVars) : SVMChainConfig :=
  { id := .solanaDevnet
    name := "Solana Devnet"
    rpcUrl := jsOr env.solanaRpcUrl "https://api.devnet.solana.com"
    routerProgramId := "Ccip842gzYHhvdDkSyi2YVCoAWPbYJoApMFzSxQroE9C"
    feeQuoterProgramId := "FeeQPGkKDeRV1MgoYfMH6L8o3KeuYjwUZrgn4LRKfjHi"
    rmnRemoteProgramId := "RmnXLft1mSEwDgMKu2okYuHkiazxntFFcZFrrcXxYg7"
    bnmTokenMint := "3PjyGzj1jGVgHSKS4VR1Hr1memm63PmN8L9rtPDKwzZ6"
    linkTokenMint := "LinkhB3afbBKb2EQQu7s7umdZceV3wcvAUJhQAfQ23L"
    wrappedNativeMint := "So11111111111111111111111111111111111111112"
    explorerUrl := "https://explorer.solana.com/tx/" }

/-- `getSVMConfig` of the backend `ccipConfig.ts`. -/
def getSVMConfig (env : EnvVars) (chainId : ChainId) : Except String SVMChainConfig :=
  if chainId ≠ ChainId.solanaDevnet then
    .error ("Unsupported SVM chain ID: " ++ chainIdString chainId)
  else
    .ok (SVM_CONFIGS env)

/-- `isEVMChain` of the backend `ccipService.ts`. -/
def isEVMChain (chainId : ChainId) : Bool :=
  chainId != ChainId.solanaDevnet

/-- `isSVMChain` of the backend `ccipService.ts`. -/
def isSVMChain (chainId : ChainId) : Bool :=
  chainId == ChainId.solanaDevnet

end Backend

/-- `ethers.ZeroAddress`. -/
def zeroAddress : String := "0x0000000000000000000000000000000000000000"

/-- Hexadecimal digit test. -/
def isHexDigitChar (c : Char) : Bool :=
  c.isDigit || ('a' ≤ c && c ≤ 'f') || ('A' ≤ c && c ≤ 'F')

/-- Concrete stand-in for the external `ethers.isAddress` collaborator:
`0x` followed by 40 hexadecimal digits (EIP-55 checksum validation of
mixed-case inputs is omitted; on every concrete input used below this
agrees with ethers). -/
def isHexAddress (s : String) : Bool :=
  let cs := s.toList
  cs.length = 42 && cs.take 2 = ['0', 'x'] && (cs.drop 2).all isHexDigitChar

namespace Backend

/-- `getFeeTokenAddress` of the backend `ccipService.ts`.  The
`ethers.isAddress` collaborator is passed explicitly.  A `none` or empty
selection is falsy in JS and takes the default branch; the `switch`
compares the raw selection string against the `FeeTokenType` enum values
case-sensitively. -/
def getFeeTokenAddress (isAddress : String → Bool) (config : EVMChainConfig)
    (feeTokenType : Option String) : String :=
  match feeTokenType with
  | none => config.linkTokenAddress
  | some s =>
    if s = "" then config.linkTokenAddress
    else if s = "native" then zeroAddress
    else if s = "wrapped-native" then config.wrappedNativeAddress
    else if s = "link" then config.linkTokenAddress
    else if isAddress s then s
    else config.linkTokenAddress

end Backend

/-- The base58 alphabet used by `bs58` / `@solana/web3.js`. -/
def base58Alphabet : List Char :=
  "123456789ABCDEFGHJKLMNPQRSTUVWXYZabcdefghijkmnopqrstuvwxyz".toList

/-- Value of one base58 digit, `none` for characters outside the
alphabet. -/
def base58DigitValue (c : Char) : Option Nat :=
  base58Alphabet.findIdx? (fun x => x = c)

/-- Big-endian base-256 digits of a natural number (no digits for 0),
with an explicit fuel argument so that the function is structurally
recursive and computable by the kernel. -/
def natToBEBytesAux : Nat → Nat → List Nat
  | 0, _ => []
  | _ + 1, 0 => []
  | fuel + 1, n => natToBEBytesAux fuel (n / 256) ++ [n % 256]

/-- Big-endian byte representation of a natural number; `n` itself is
always enough fuel since the value shrinks by a factor of 256 each
step. -/
def natToBEBytes (n : Nat) : List Nat :=
  natToBEBytesAux n n

/-- `bs58.decode`: interpret the string as a big base58 numeral and
prepend one zero byte per leading alphabet-zero character; `none` on any
character outside the alphabet. -/
def base58Decode (s : String) : Option (List Nat) :=
  match (s.toList.mapM base58DigitValue) with
  | none => none
  | some digits =>
    let value := digits.foldl (fun acc d => acc * 58 + d) 0
    let leading := (s.toList.takeWhile (fun c => c = '1')).length
    some (List.replicate leading 0 ++ natToBEBytes value)

/-- The `new PublicKey(string)` constructor of `@solana/web3.js`:
base58-decode and require exactly 32 bytes; the raw 32 bytes on
success. -/
def parseSolanaPublicKey (s : String) : Option (List Nat) :=
  match base58Decode s with
  | some bytes => if bytes.length = 32 then some bytes else none
  | none => none

/-- `encodeSolanaAddressToBytes32` of the backend `ccipService.ts`: the
TS code validates the address through the `PublicKey` constructor, then
writes `pubkey.toBytes()` into a zeroed 32-byte buffer at offset
`32 - bytes.length` and returns it hex-encoded.  The model returns the
byte content of that buffer. -/
def encodeSolanaAddressToBytes32 (solanaAddress : String) : Except String (List Nat) :=
  match parseSolanaPublicKey solanaAddress with
  | some bytes => .ok (List.replicate (32 - bytes.length) 0 ++ bytes)
  | none => .error ("Invalid Solana address: " ++ solanaAddress)

/-- `createSolanaExtraArgs` of the backend `ccipService.ts`: the fixed
SVM-extra-args tag followed by the ABI encoding of the constant default
struct (compute units 200000, zero writability bitmap, out-of-order
execution allowed, zero token receiver, no extra accounts). -/
def createSolanaExtraArgs : String :=
  "0x1f3b3aba" ++
  "0000000000000000000000000000000000000000000000000000000000000020" ++
  "0000000000000000000000000000000000000000000000000000000000030d40" ++
  "0000000000000000000000000000000000000000000000000000000000000000" ++
  "0000000000000000000000000000000000000000000000000000000000000001" ++
  "0000000000000000000000000000000000000000000000000000000000000000" ++
  "00000000000000000000000000000000000000000000000000000000000000a0" ++
  "0000000000000000000000000000000000000000000000000000000000000000"

/-- Split a character list at every occurrence of a separator (same
semantics as JS `String.split` on a single-character separator). -/
def splitOnChar (sep : Char) : List Char → List (List Char)
  | [] => [[]]
  | c :: rest =>
    if c = sep then [] :: splitOnChar sep rest
    else
      match splitOnChar sep rest with
      | [] => [[c]]
      | h :: t => (c :: h) :: t

/-- Digits-only check used by the decimal parser below. -/
def allDigits (cs : List Char) : Bool :=
  !cs.isEmpty && cs.all (fun c => c.isDigit)

/-- Value of a digit string. -/
def digitsVal (cs : List Char) : Nat :=
  cs.foldl (fun acc c => acc * 10 + (c.toNat - 48)) 0

/-- Models `ethers.parseUnits(value, 18)` on the decimal strings this
service passes to it: an integer part, an optional fraction of at most
18 digits, scaled to 18 decimals; anything else throws. -/
def parseUnits18 (value : String) : Except String Nat :=
  match splitOnChar '.' value.toList with
  | [w] =>
    if allDigits w then .ok (digitsVal w * 10 ^ 18)
    else .error ("invalid decimal value: " ++ value)
  | [w, f] =>
    if allDigits w && allDigits f && f.length ≤ 18 then
      .ok (digitsVal w * 10 ^ 18 + digitsVal f * 10 ^ (18 - f.length))
    else .error ("invalid decimal value: " ++ value)
  | _ => .error ("invalid decimal value: " ++ value)

/-- UTF-8 encoding of one character, by codepoint range. -/
def utf8EncodeCharNat (c : Char) : List Nat :=
  let n := c.toNat
  if n < 128 then [n]
  else if n < 2048 then [192 + n / 64, 128 + n % 64]
  else if n < 65536 then [224 + n / 4096, 128 + (n / 64) % 64, 128 + n % 64]
  else [240 + n / 262144, 128 + (n / 4096) % 64, 128 + (n / 64) % 64, 128 + n % 64]

/-- `ethers.toUtf8Bytes`. -/
def toUtf8Bytes (s : String) : List Nat :=
  (s.toList.map utf8EncodeCharNat).flatten

/-- Lowercasing used to model JS `toLowerCase` (character-wise ASCII
lowercasing, matching `Char.toLower`). -/
def strToLower (s : String) : String :=
  String.mk (s.toList.map Char.toLower)

/-- Decimal representation of a natural number (fuel-based so that the
kernel can evaluate it). -/
def natToStringAux : Nat → Nat → List Char
  | 0, _ => []
  | _ + 1, 0 => []
  | fuel + 1, n => natToStringAux fuel (n / 10) ++ [Char.ofNat (48 + n % 10)]

/-- Decimal string of a natural number (models JS number-to-string in
template literals). -/
def natToString (n : Nat) : String :=
  if n = 0 then "0" else String.mk (natToStringAux n n)

/-- Lowercase hexadecimal digit character, mirroring
`Math.floor(Math.random() * 16).toString(16)`. -/
def hexDigitChar (n : Nat) : Char :=
  ("0123456789abcdef".toList).getD (n % 16) '0'

/-- The fabricated 64-hex-digit string
`Array.from({length: 64}, () => Math.floor(Math.random()*16).toString(16)).join('')`,
with the `Math.random` collaborator modelled as a stream `rng` of hex
digits consumed from index `start`. -/
def randomHex64 (rng : Nat → Nat) (start : Nat) : String :=
  String.mk ((List.range 64).map (fun i => hexDigitChar (rng (start + i))))

/-- One `{token, amount}` entry of an EVM-side CCIP message. -/
structure EVMTokenAmount where
  token : String
  amount : Nat
deriving DecidableEq, Repr

/-- The `message` object handed to `router.getFee` / `router.ccipSend`
(`EVM2AnyMessage`).  For an account-model destination the TS code stores
the hex string of the padded receiver; the model stores the byte
content. -/
structure EVM2AnyMessage where
  receiver : List Nat
  data : String
  tokenAmounts : List EVMTokenAmount
  feeToken : String
  extraArgs : String
deriving DecidableEq, Repr

/-- The `CCIPTransferStatus` enum. -/
inductive CCIPTransferStatus
  | pending
  | processing
  | completed
  | failed
deriving DecidableEq, Repr

/-- The transfer record inside a `CCIPTransferResult`. -/
structure TransferRecord where
  id : String
  timestamp : String
  status : CCIPTransferStatus
  sourceChain : String
  destinationChain : String
  amount : String
  asset : String
  sender : String
  receiver : String
  txHash : Option String := none
  messageId : Option String := none
  error : Option String := none
deriving DecidableEq, Repr

/-- The `CCIPTransferResult` interface. -/
structure CCIPTransferResult where
  success : Bool
  transfer : Option TransferRecord := none
  error : Option String := none
deriving DecidableEq, Repr

/-- The `CCIPTransferRequest` interface. -/
structure CCIPTransferRequest where
  sourceChain : ChainId
  destinationChain : ChainId
  receiver : String
  amount : String
  asset : String
  feeToken : Option String := none
deriving DecidableEq, Repr

/-- A recorded `router.getFee` call.  The selector is `Option` because
the EVM-to-SVM path reads `destConfig.chainSelector` from a
`SVMChainConfig`, which has no such field, so the value passed there is
`undefined`. -/
structure FeeCall where
  destinationChainSelector : Option Nat
  message : EVM2AnyMessage
deriving DecidableEq, Repr

/-- A recorded `router.ccipSend` call, with the native value attached to
the transaction. -/
structure SendCall where
  destinationChainSelector : Option Nat
  message : EVM2AnyMessage
  value : Nat
deriving DecidableEq, Repr

/-- The network calls a dispatcher run issued against the source-chain
router. -/
structure NetTrace where
  feeCalls : List FeeCall
  sendCalls : List SendCall
deriving DecidableEq, Repr

/-- A trace with no calls. -/
def emptyTrace : NetTrace := ⟨[], []⟩

/-- Outcomes of the external collaborators a dispatcher run interacts
with: environment variables, `ethers.isAddress`, wallet loading (payload
is the signer address resp. the Solana public key), the fee quote, the
transaction submission (payload is `tx.hash`), the confirmation wait
(payload is `receipt?.hash`, `none` when the receipt is null), and the
`Math.random` hex-digit stream. -/
structure ExecEnv where
  envVars : EnvVars
  isAddress : String → Bool
  evmWallet : Except String String
  solanaWallet : Except String String
  getFee : Except String Nat
  sendTx : Except String String
  waitReceipt : Except String (Option String)
  rng : Nat → Nat

namespace Backend

/-- The failure `CCIPTransferResult` built by the catch handler of
`executeEVMToEVMTransfer`, which looks the chain names up again; those
lookups can themselves throw, in which case the error escapes the
handler (and is caught by the outer catch of `executeTransfer`). -/
def evmToEVMFailedResult (env : ExecEnv) (transferId timestamp : String)
    (request : CCIPTransferRequest) (emsg : String) : Except String CCIPTransferResult :=
  match getEVMConfig env.envVars request.sourceChain with
  | .error e => .error e
  | .ok srcCfg =>
    match getEVMConfig env.envVars request.destinationChain with
    | .error e => .error e
    | .ok dstCfg =>
      .ok { success := false
            transfer := some
              { id := transferId
                timestamp := timestamp
                status := .failed
                sourceChain := srcCfg.name
                destinationChain := dstCfg.name
                amount := request.amount
                asset := request.asset
                sender := "unknown"
                receiver := request.receiver
                error := some emsg }
            error := some emsg }

/-- `executeEVMToEVMTransfer` of the backend `ccipService.ts`, as a pure
function of the collaborator outcomes, returning the (possibly
escaping) result and the router calls issued. -/
def executeEVMToEVMTransfer (env : ExecEnv) (transferId timestamp : String)
    (request : CCIPTransferRequest) : Except String CCIPTransferResult × NetTrace :=
  match getEVMConfig env.envVars request.sourceChain with
  | .error e => (evmToEVMFailedResult env transferId timestamp request e, emptyTrace)
  | .ok sourceConfig =>
  match getEVMConfig env.envVars request.destinationChain with
  | .error e => (evmToEVMFailedResult env transferId timestamp request e, emptyTrace)
  | .ok destConfig =>
  match env.evmWallet with
  | .error e => (evmToEVMFailedResult env transferId timestamp request e, emptyTrace)
  | .ok senderAddress =>
  match parseUnits18 request.amount with
  | .error e => (evmToEVMFailedResult env transferId timestamp request e, emptyTrace)
  | .ok amountWei =>
  let message : EVM2AnyMessage :=
    { receiver := toUtf8Bytes request.receiver
      data := "0x"
      tokenAmounts := [{ token := sourceConfig.bnmTokenAddress, amount := amountWei }]
      feeToken := getFeeTokenAddress env.isAddress sourceConfig request.feeToken
      extraArgs := "0x" }
  let feeCall : FeeCall := ⟨some destConfig.chainSelector, message⟩
  match env.getFee with
  | .error e => (evmToEVMFailedResult env transferId timestamp request e, ⟨[feeCall], []⟩)
  | .ok fee =>
  let sendCall : SendCall := ⟨some destConfig.chainSelector, message, fee⟩
  let trace : NetTrace := ⟨[feeCall], [sendCall]⟩
  match env.sendTx with
  | .error e => (evmToEVMFailedResult env transferId timestamp request e, trace)
  | .ok _txSubmittedHash =>
  match env.waitReceipt with
  | .error e => (evmToEVMFailedResult env transferId timestamp request e, trace)
  | .ok receiptHash =>
  let messageId := "0x" ++ randomHex64 env.rng 0
  (.ok { success := true
         transfer := some
           { id := transferId
             timestamp := timestamp
             status := .completed
             sourceChain := sourceConfig.name
             destinationChain := destConfig.name
             amount := request.amount
             asset := request.asset
             sender := senderAddress
             receiver := request.receiver
             txHash := receiptHash
             messageId := some messageId } },
   trace)

/-- The failure result built by the catch handler of
`executeEVMToSVMTransfer` (source chain name from the EVM registry,
destination chain name from the SVM registry). -/
def evmToSVMFailedResult (env : ExecEnv) (transferId timestamp : String)
    (request : CCIPTransferRequest) (emsg : String) : Except String CCIPTransferResult :=
  match getEVMConfig env.envVars request.sourceChain with
  | .error e => .error e
  | .ok srcCfg =>
    match getSVMConfig env.envVars request.destinationChain with
    | .error e => .error e
    | .ok dstCfg =>
      .ok { success := false
            transfer := some
              { id := transferId
                timestamp := timestamp
                status := .failed
                sourceChain := srcCfg.name
                destinationChain := dstCfg.name
                amount := request.amount
                asset := request.asset
                sender := "unknown"
                receiver := request.receiver
                error := some emsg }
            error := some emsg }

/-- `executeEVMToSVMTransfer` of the backend `ccipService.ts`.  The
receiver is encoded before the message is built; the fee call passes
`destConfig.chainSelector`, a field `SVMChainConfig` does not have, so
the recorded selector is `none` (undefined in JS). -/
def executeEVMToSVMTransfer (env : ExecEnv) (transferId timestamp : String)
    (request : CCIPTransferRequest) : Except String CCIPTransferResult × NetTrace :=
  match getEVMConfig env.envVars request.sourceChain with
  | .error e => (evmToSVMFailedResult env transferId timestamp request e, emptyTrace)
  | .ok sourceConfig =>
  match getSVMConfig env.envVars request.destinationChain with
  | .error e => (evmToSVMFailedResult env transferId timestamp request e, emptyTrace)
  | .ok destConfig =>
  match env.evmWallet with
  | .error e => (evmToSVMFailedResult env transferId timestamp request e, emptyTrace)
  | .ok senderAddress =>
  match encodeSolanaAddressToBytes32 request.receiver with
  | .error e => (evmToSVMFailedResult env transferId timestamp request e, emptyTrace)
  | .ok solanaReceiver =>
  match parseUnits18 request.amount with
  | .error e => (evmToSVMFailedResult env transferId timestamp request e, emptyTrace)
  | .ok amountWei =>
  let message : EVM2AnyMessage :=
    { receiver := solanaReceiver
      data := "0x"
      tokenAmounts := [{ token := sourceConfig.bnmTokenAddress, amount := amountWei }]
      feeToken := getFeeTokenAddress env.isAddress sourceConfig request.feeToken
      extraArgs := createSolanaExtraArgs }
  let feeCall : FeeCall := ⟨none, message⟩
  match env.getFee with
  | .error e => (evmToSVMFailedResult env transferId timestamp request e, ⟨[feeCall], []⟩)
  | .ok fee =>
  let sendCall : SendCall := ⟨none, message, fee⟩
  let trace : NetTrace := ⟨[feeCall], [sendCall]⟩
  match env.sendTx with
  | .error e => (evmToSVMFailedResult env transferId timestamp request e, trace)
  | .ok _txSubmittedHash =>
  match env.waitReceipt with
  | .error e => (evmToSVMFailedResult env transferId timestamp request e, trace)
  | .ok receiptHash =>
  let messageId := "0x" ++ randomHex64 env.rng 0
  (.ok { success := true
         transfer := some
           { id := transferId
             timestamp := timestamp
             status := .completed
             sourceChain := sourceConfig.name
             destinationChain := destConfig.name
             amount := request.amount
             asset := request.asset
             sender := senderAddress
             receiver := request.receiver
             txHash := receiptHash
             messageId := some messageId } },
   trace)

/-- The failure result built by the catch handler of
`executeSVMToEVMTransfer`. -/
def svmToEVMFailedResult (env : ExecEnv) (transferId timestamp : String)
    (request : CCIPTransferRequest) (emsg : String) : Except String CCIPTransferResult :=
  match getSVMConfig env.envVars request.sourceChain with
  | .error e => .error e
  | .ok srcCfg =>
    match getEVMConfig env.envVars request.destinationChain with
    | .error e => .error e
    | .ok dstCfg =>
      .ok { success := false
            transfer := some
              { id := transferId
                timestamp := timestamp
                status := .failed
                sourceChain := srcCfg.name
                destinationChain := dstCfg.name
                amount := request.amount
                asset := request.asset
                sender := "unknown"
                receiver := request.receiver
                error := some emsg }
            error := some emsg }

/-- `executeSVMToEVMTransfer` of the backend `ccipService.ts`: the
CCIP submission is not implemented; after loading the Solana wallet the
function returns a mock completed record whose transaction hash and
message id are both fabricated from the `Math.random` stream (64 hex
digits each, the message id with a `0x` prefix), issuing no router
calls. -/
def executeSVMToEVMTransfer (env : ExecEnv) (transferId timestamp : String)
    (request : CCIPTransferRequest) : Except String CCIPTransferResult × NetTrace :=
  match getSVMConfig env.envVars request.sourceChain with
  | .error e => (svmToEVMFailedResult env transferId timestamp request e, emptyTrace)
  | .ok sourceConfig =>
  match getEVMConfig env.envVars request.destinationChain with
  | .error e => (svmToEVMFailedResult env transferId timestamp request e, emptyTrace)
  | .ok destConfig =>
  match env.solanaWallet with
  | .error e => (svmToEVMFailedResult env transferId timestamp request e, emptyTrace)
  | .ok walletPublicKey =>
  (.ok { success := true
         transfer := some
           { id := transferId
             timestamp := timestamp
             status := .completed
             sourceChain := sourceConfig.name
             destinationChain := destConfig.name
             amount := request.amount
             asset := request.asset
             sender := walletPublicKey
             receiver := request.receiver
             txHash := some (randomHex64 env.rng 0)
             messageId := some ("0x" ++ randomHex64 env.rng 64) } },
   emptyTrace)

/-- The outer catch of `executeTransfer`: an error escaping a handler is
converted into a bare failure result with no transfer record. -/
def wrapResult (r : Except String CCIPTransferResult × NetTrace) :
    CCIPTransferResult × NetTrace :=
  match r with
  | (.ok result, trace) => (result, trace)
  | (.error e, trace) => ({ success := false, error := some e }, trace)

/-- `executeTransfer` of the backend `ccipService.ts`: classify the
`(source family, destination family)` pair, dispatch to the matching
handler, and catch anything that escapes.  The generated transfer id and
the creation timestamp are passed as parameters (time abstraction). -/
def executeTransfer (env : ExecEnv) (transferId timestamp : String)
    (request : CCIPTransferRequest) : CCIPTransferResult × NetTrace :=
  if isEVMChain request.sourceChain && isEVMChain request.destinationChain then
    wrapResult (executeEVMToEVMTransfer env transferId timestamp request)
  else if isEVMChain request.sourceChain && isSVMChain request.destinationChain then
    wrapResult (executeEVMToSVMTransfer env transferId timestamp request)
  else if isSVMChain request.sourceChain && isEVMChain request.destinationChain then
    wrapResult (executeSVMToEVMTransfer env transferId timestamp request)
  else
    ({ success := false
       error := some ("Unsupported chain combination: " ++
         chainIdString request.sourceChain ++ " to " ++
         chainIdString request.destinationChain) },
     emptyTrace)

end Backend

/-- The `AssetType` enum of the frontend `ccipConfig.ts`. -/
inductive AssetType
  | usdc
  | bnm
  | link
  | eth
  | sol
  | custom
deriving DecidableEq, Repr

namespace Frontend

/-- The `EVM_CONFIGS` table of the frontend `ccipConfig.ts`; rpc URLs
are hardcoded literals there (`EVM_RPC_URLS`), inlined here.  The
`supportedAssets` lists (identical across entries and consulted by no
modelled operation) are kept in `frontendSupportedAssets` below. -/
def EVM_CONFIGS : ChainId → Option EVMChainConfig
  | .ethereumSepolia => some
    { id := .ethereumSepolia
      name := "Ethereum Sepolia"
      rpcUrl := "https://sepolia.infura.io/v3/YOUR_INFURA_PROJECT_ID"
      chainId := 11155111
      chainSelector := CHAIN_SELECTORS .ethereumSepolia
      routerAddress := "0x0BF3dE8c5D3e8A2B34D2BEeB17ABfCeBaf363A59"
      tokenAdminRegistryAddress := "0x95F29FEE11c5C55d26cCcf1DB6772DE953B37B82"
      bnmTokenAddress := "0xFd57b4ddBf88a4e07fF4e34C487b99af2Fe82a05"
      faucetAddress := some "0x12B0a29ac7dF641e480D195aD79BC1ae2c0B9BcA"
      linkTokenAddress := "0x779877A7B0D9E8603169DdbD7836e478b4624789"
      wrappedNativeAddress := "0x097D90c9d3E0B50Ca60e1ae45F6A81010f9FB534"
      explorerBaseUrl := "https://sepolia.etherscan.io/"
      confirmations := some 3 }
  | .baseSepolia => some
    { id := .baseSepolia
      name := "Base Sepolia"
      rpcUrl := "https://sepolia.base.org"
      chainId := 84532
      chainSelector := CHAIN_SELECTORS .baseSepolia
      routerAddress := "0xD3b06cEbF099CE7DA4AcCf578aaebFDBd6e88a93"
      tokenAdminRegistryAddress := "0x736D0bBb318c1B27Ff686cd19804094E66250e17"
      bnmTokenAddress := "0x88A2d74F47a237a62e7A51cdDa67270CE381555e"
      faucetAddress := some ""
      linkTokenAddress := "0xE4aB69C077896252FAFBD49EFD26B5D171A32410"
      wrappedNativeAddress := "0x4200000000000000000000000000000000000006"
      explorerBaseUrl := "https://sepolia.basescan.org/"
      confirmations := some 3 }
  | .optimismSepolia => some
    { id := .optimismSepolia
      name := "Optimism Sepolia"
      rpcUrl := "https://sepolia.optimism.io"
      chainId := 11155420
      chainSelector := CHAIN_SELECTORS .optimismSepolia
      routerAddress := "0x114A20A10b43D4115e5aeef7345a1A71d2a60C57"
      tokenAdminRegistryAddress := "0x1d702b1FA12F347f0921C722f9D9166F00DEB67A"
      bnmTokenAddress := "0x8aF4204e30565DF93352fE8E1De78925F6664dA7"
      faucetAddress := some ""
      linkTokenAddress := "0xE4aB69C077896252FAFBD49EFD26B5D171A32410"
      wrappedNativeAddress := "0x4200000000000000000000000000000000000006"
      explorerBaseUrl := "sepolia-optimism.etherscan.io/"
      confirmations := some 3 }
  | .bscTestnet => some
    { id := .bscTestnet
      name := "BSC Testnet"
      rpcUrl := "https://data-seed-prebsc-1-s1.binance.org:8545"
      chainId := 97
      chainSelector := CHAIN_SELECTORS .bscTestnet
      routerAddress := "0xE1053aE1857476f36A3C62580FF9b016E8EE8F6f"
      tokenAdminRegistryAddress := "0xF8f2A4466039Ac8adf9944fD67DBb3bb13888f2B"
      bnmTokenAddress := "0xbFA2ACd33ED6EEc0ed3Cc06bF1ac38d22b36B9e9"
      faucetAddress := some ""
      linkTokenAddress := "0x84b9B910527Ad5C03A9Ca831909E21e236EA7b06"
      wrappedNativeAddress := "0xae13d989daC2f0dEbFf460aC112a837C89BAa7cd"
      explorerBaseUrl := "https://testnet.bscscan.com/"
      confirmations := some 3 }
  | .arbitrumSepolia => some
    { id := .arbitrumSepolia
      name := "Arbitrum Sepolia"
      rpcUrl := "https://sepolia-rollup.arbitrum.io/rpc"
      chainId := 421614
      chainSelector := CHAIN_SELECTORS .arbitrumSepolia
      routerAddress := "0x2a9C5afB0d0e4BAb2BCdaE109EC4b0c4Be15a165"
      tokenAdminRegistryAddress := "0x8126bE56454B628a88C17849B9ED99dd5a11Bd2f"
      bnmTokenAddress := "0xA8C0c11bf64AF62CDCA6f93D3769B88BdD7cb93D"
      faucetAddress := some ""
      linkTokenAddress := "0xb1D4538B4571d411F07960EF2838Ce337FE1E80E"
      wrappedNativeAddress := "0xE591bf0A0CF924A0674d7792db046B23CEbF5f34"
      explorerBaseUrl := "https://sepolia.arbiscan.io/"
      confirmations := some 3 }
  | .sonicBlaze => some
    { id := .sonicBlaze
      name := "Sonic Blaze"
      rpcUrl := "https://rpc.sonic.game"
      chainId := 57054
      chainSelector := CHAIN_SELECTORS .sonicBlaze
      routerAddress := "0x2fBd4659774D468Db5ca5bacE37869905d8EfA34"
      tokenAdminRegistryAddress := "0xB87d268E7E5d921c72d1D999fa6a2Bfc6A5dBC5C"
      bnmTokenAddress := "0x230c46b9a7c8929A80863bDe89082B372a4c7A99"
      faucetAddress := some ""
      linkTokenAddress := "0xd8C1eEE32341240A62eC8BC9988320bcC13c8580"
      wrappedNativeAddress := "0x917FE4b784d1895187Df169aeCc687C03ba12662"
      explorerBaseUrl := "https://testnet.sonicscan.org/"
      confirmations := some 3 }
  | .solanaDevnet => none

/-- The `supportedAssets` list shared by every frontend EVM config
entry. -/
def frontendSupportedAssets : List AssetType :=
  [.usdc, .bnm, .link, .eth]

/-- `getEVMConfig` of the frontend `ccipConfig.ts`. -/
def getEVMConfig (chainId : ChainId) : Except String EVMChainConfig :=
  match EVM_CONFIGS chainId with
  | some config => .ok config
  | none => .error ("Unsupported or unconfigured EVM chain ID: " ++ chainIdString chainId)

/-- The Solana entry of the frontend `SVM_CONFIGS`; `PublicKey` values
are kept as their base58 strings (`PublicKey.default` and
`SystemProgram.programId` are the all-ones key; `NATIVE_MINT` is the
WSOL mint).  Runtime-only fields (`connection`, `connectionConfig`) have
no observable content in the modelled operations. -/
structure SVMChainConfig where
  id : ChainId
  name : String
  routerProgramId : String
  feeQuoterProgramId : String
  rmnRemoteProgramId : String
  bnmTokenMint : String
  linkTokenMint : String
  wrappedNativeMint : String
  explorerUrl : String
  supportedAssets : List AssetType
  nativeSol : String
  systemProgramId : String
  receiverProgramId : String
deriving DecidableEq, Repr

/-- The `SVM_CONFIGS` table of the frontend `ccipConfig.ts`. -/
def SVM_CONFIGS : SVMChainConfig :=
  { id := .solanaDevnet
    name := "Solana Devnet"
    routerProgramId := "Ccip842gzYHhvdDkSyi2YVCoAWPbYJoApMFzSxQroE9C"
    feeQuoterProgramId := "FeeQPGkKDeRV1MgoYfMH6L8o3KeuYjwUZrgn4LRKfjHi"
    rmnRemoteProgramId := "RmnXLft1mSEwDgMKu2okYuHkiazxntFFcZFrrcXxYg7"
    bnmTokenMint := "3PjyGzj1jGVgHSKS4VR1Hr1memm63PmN8L9rtPDKwzZ6"
    linkTokenMint := "LinkhB3afbBKb2EQQu7s7umdZceV3wcvAUJhQAfQ23L"
    wrappedNativeMint := "So11111111111111111111111111111111111111112"
    explorerUrl := "https://explorer.solana.com/tx/"
    supportedAssets := [.usdc, .bnm, .link, .sol]
    nativeSol := "11111111111111111111111111111111"
    systemProgramId := "11111111111111111111111111111111"
    receiverProgramId := "BqmcnLFSbKwyMEgi7VhVeJCis1wW26VySztF34CJrKFq" }

/-- `getCCIPSVMConfig` of the frontend `ccipConfig.ts`. -/
def getCCIPSVMConfig (chainId : ChainId) : Except String SVMChainConfig :=
  if chainId ≠ ChainId.solanaDevnet then
    .error ("Unsupported SVM chain ID: " ++ chainIdString chainId)
  else
    .ok SVM_CONFIGS

/-- `getEVMFeeTokenAddress` of the frontend `ccipConfig.ts`: same shape
as the backend resolver, but the `switch` scrutinee is
`feeTokenType.toLowerCase()`; the verbatim-address branch still tests
and returns the original string. -/
def getEVMFeeTokenAddress (isAddress : String → Bool) (config : EVMChainConfig)
    (feeTokenType : Option String) : String :=
  match feeTokenType with
  | none => config.linkTokenAddress
  | some s =>
    if s = "" then config.linkTokenAddress
    else if strToLower s = "native" then zeroAddress
    else if strToLower s = "wrapped-native" then config.wrappedNativeAddress
    else if strToLower s = "link" then config.linkTokenAddress
    else if isAddress s then s
    else config.linkTokenAddress

/-- `getAssetAddress` of the frontend `ccipConfig.ts`; `PublicKey`
results are their base58 strings. -/
def getAssetAddress (chainId : ChainId) (assetType : AssetType) : Except String String :=
  if chainId = ChainId.solanaDevnet then
    match assetType with
    | .bnm => .ok SVM_CONFIGS.bnmTokenMint
    | .link => .ok SVM_CONFIGS.linkTokenMint
    | .sol => .ok "11111111111111111111111111111111"
    | .usdc => .ok "EPjFWdd5AufqSSqeM2qN1xzybapC8G4wEGGkZwyTDt1v"
    | _ => .ok "11111111111111111111111111111111"
  else
    match EVM_CONFIGS chainId with
    | none => .error ("Unsupported chain ID: " ++ chainIdString chainId)
    | some config =>
      match assetType with
      | .bnm => .ok config.bnmTokenAddress
      | .link => .ok config.linkTokenAddress
      | .eth => .ok zeroAddress
      | .usdc => .ok "0xA0b86991c6218b36c1d19D4a2e9Eb0cE3606eB48"
      | _ => .ok zeroAddress

end Frontend

namespace Frontend

/-- Outcome of the `fetch` to the backend transfer endpoint: the promise
rejects (network error), the response is not ok (with the JSON body's
error field), or the response is ok with a parsed backend
`CCIPTransferResult`. -/
inductive FetchOutcome
  | fetchRejected (msg : String)
  | notOk (errorField : Option String)
  | ok (result : CCIPTransferResult)

/-- The `CCIPTransfer` record of the frontend `ccipService.ts`; the
`Date` timestamp is modelled as milliseconds. -/
structure CCIPTransfer where
  id : String
  timestamp : Nat
  status : CCIPTransferStatus
  sourceChain : String
  destinationChain : String
  amount : String
  asset : String
  sender : String
  receiver : String
  txHash : Option String := none
  messageId : Option String := none
  error : Option String := none
deriving DecidableEq, Repr

/-- The frontend `CCIPTransferResult`. -/
structure TransferServiceResult where
  success : Bool
  transfer : Option CCIPTransfer := none
  error : Option String := none
deriving DecidableEq, Repr

/-- The private `getChainName` of the frontend service: Solana goes
through the SVM config, everything else through the EVM config, and a
lookup failure falls back to the raw chain id string. -/
def getChainName (chainId : ChainId) : String :=
  if chainId = ChainId.solanaDevnet then
    match getCCIPSVMConfig chainId with
    | .ok config => config.name
    | .error _ => chainIdString chainId
  else
    match getEVMConfig chainId with
    | .ok config => config.name
    | .error _ => chainIdString chainId

/-- In-place update of the first record with the given id (the TS code
mutates the record returned by `find`). -/
def updateFirst (transfers : List CCIPTransfer) (transferId : String)
    (g : CCIPTransfer → CCIPTransfer) : List CCIPTransfer :=
  match transfers with
  | [] => []
  | t :: rest =>
    if t.id = transferId then g t :: rest
    else t :: updateFirst rest transferId g

/-- `CCIPService.updateTransferStatus`: set the status, then merge the
partial update (a no-op when no record has the id). -/
def updateTransferStatus (transfers : List CCIPTransfer) (transferId : String)
    (status : CCIPTransferStatus) (updates : CCIPTransfer → CCIPTransfer) :
    List CCIPTransfer :=
  updateFirst transfers transferId (fun t => updates { t with status := status })

/-- `CCIPService.getTransferById`. -/
def getTransferById (transfers : List CCIPTransfer) (transferId : String) :
    Option CCIPTransfer :=
  transfers.find? (fun tx => tx.id = transferId)

/-- The catch block of the frontend `executeTransfer`.  It re-evaluates
`Date.now()` to build the id it searches for (`tFind`) and again to
build the id it updates (`tUpdate`), instead of using the id of the
record it created; the returned result carries no transfer. -/
def catchHandler (tFind tUpdate : Nat) (transfers : List CCIPTransfer)
    (msg : String) : TransferServiceResult × List CCIPTransfer :=
  let transfers2 :=
    if transfers.any (fun tx => tx.id = "ccip-" ++ natToString tFind) then
      updateTransferStatus transfers ("ccip-" ++ natToString tUpdate) .failed
        (fun t => { t with error := some msg })
    else transfers
  ({ success := false, error := some msg }, transfers2)

/-- `CCIPService.executeTransfer` of the frontend `ccipService.ts`, as a
pure function of the request, the wallet address, the creation-time
clock reading `tCreate`, the backend fetch outcome, the two catch-time
clock readings, and the current store.  It appends a record in
`processing` state, then updates it (or, in the catch path, whatever
record matches the freshly recomputed id) according to the outcome, and
returns the result together with the final store. -/
def executeTransfer (request : CCIPTransferRequest) (walletAddress : String)
    (tCreate : Nat) (outcome : FetchOutcome) (tFind tUpdate : Nat)
    (transfers : List CCIPTransfer) : TransferServiceResult × List CCIPTransfer :=
  let transfer : CCIPTransfer :=
    { id := "ccip-" ++ natToString tCreate
      timestamp := tCreate
      status := .processing
      sourceChain := getChainName request.sourceChain
      destinationChain := getChainName request.destinationChain
      amount := request.amount
      asset := request.asset
      sender := walletAddress
      receiver := request.receiver }
  let transfers1 := transfers ++ [transfer]
  match outcome with
  | .ok result =>
    match result.success, result.transfer with
    | true, some backendTransfer =>
      let transfers2 := updateTransferStatus transfers1 transfer.id
        backendTransfer.status
        (fun t => { t with txHash := backendTransfer.txHash
                           messageId := backendTransfer.messageId })
      ({ success := true, transfer := getTransferById transfers2 transfer.id },
       transfers2)
    | _, _ =>
      let transfers2 := updateTransferStatus transfers1 transfer.id .failed
        (fun t => { t with error := some (jsOr result.error "Unknown error") })
      ({ success := false
         transfer := getTransferById transfers2 transfer.id
         error := some (jsOr result.error "Failed to execute transfer") },
       transfers2)
  | .notOk errorField =>
    catchHandler tFind tUpdate transfers1 (jsOr errorField "Failed to execute transfer")
  | .fetchRejected msg =>
    catchHandler tFind tUpdate transfers1 msg

end Frontend

/-- The Ethereum Sepolia backend descriptor under an empty environment
(the fallback argument of `getD` is unreachable). -/
def sepoliaConfig : EVMChainConfig :=
  (Backend.getEVMConfig emptyEnvVars ChainId.ethereumSepolia).toOption.getD
    { id := .ethereumSepolia, name := "", rpcUrl := "", chainId := 0, chainSelector := 0,
      routerAddress := "", tokenAdminRegistryAddress := "", bnmTokenAddress := "",
      faucetAddress := none, linkTokenAddress := "", wrappedNativeAddress := "",
      explorerBaseUrl := "", confirmations := none }

/-- Collaborator outcomes for a run in which every external interaction
succeeds: wallets load, the fee quote returns 5, the submission and the
confirmation wait succeed with a fixed receipt hash, and the
`Math.random` stream yields the hex digit `i % 16` at draw `i`. -/
def testEnv : ExecEnv :=
  { envVars := emptyEnvVars
    isAddress := isHexAddress
    evmWallet := .ok "0x9d087fC03ae39b088326b67fA3C788236645b717"
    solanaWallet := .ok "EPUjBP3Xf76K1VKsDSc6GupBWE8uykNksCLJgXZn87CB"
    getFee := .ok 5
    sendTx := .ok "0x54e1a1fabc1e4cbf9f8ad7a2b1c2d3e4f5061728394a5b6c7d8e9f0112233445"
    waitReceipt := .ok (some "0x54e1a1fabc1e4cbf9f8ad7a2b1c2d3e4f5061728394a5b6c7d8e9f0112233445")
    rng := fun i => i % 16 }

/-- The same collaborator outcomes with a different `Math.random`
stream (every chain interaction, including the receipt, is
identical). -/
def testEnvAltRng : ExecEnv :=
  { testEnv with rng := fun i => (i + 7) % 16 }

/-- A well-formed EVM-to-EVM request (Sepolia to Base Sepolia, native
fee token). -/
def evmToEvmRequest : CCIPTransferRequest :=
  { sourceChain := .ethereumSepolia
    destinationChain := .baseSepolia
    receiver := "0x9d087fC03ae39b088326b67fA3C788236645b717"
    amount := "10"
    asset := "BnM"
    feeToken := some "native" }

/-- The same request paying the fee in LINK. -/
def linkFeeRequest : CCIPTransferRequest :=
  { evmToEvmRequest with feeToken := some "link" }

/-- The same request asking to transfer the LINK asset. -/
def linkAssetRequest : CCIPTransferRequest :=
  { evmToEvmRequest with asset := "LINK" }

/-- A Solana-to-EVM request. -/
def svmToEvmRequest : CCIPTransferRequest :=
  { sourceChain := .solanaDevnet
    destinationChain := .ethereumSepolia
    receiver := "0x9d087fC03ae39b088326b67fA3C788236645b717"
    amount := "10"
    asset := "BnM"
    feeToken := none }

/-- A Solana-to-Solana request whose receiver string is not a parseable
Solana address. -/
def solanaToSolanaRequest : CCIPTransferRequest :=
  { sourceChain := .solanaDevnet
    destinationChain := .solanaDevnet
    receiver := "not-a-solana-address"
    amount := "10"
    asset := "BnM"
    feeToken := some "native" }

/-- An EVM-to-Solana request whose receiver string is not a parseable
Solana address. -/
def evmToSvmBadReceiverRequest : CCIPTransferRequest :=
  { sourceChain := .ethereumSepolia
    destinationChain := .solanaDevnet
    receiver := "not-a-solana-address"
    amount := "10"
    asset := "BnM"
    feeToken := some "native" }

/-- The WSOL mint, a valid base58 Solana address. -/
def wsolMintStr : String := "So11111111111111111111111111111111111111112"

/-- The 32 raw bytes of the WSOL mint public key. -/
def wsolRaw : List Nat :=
  (parseSolanaPublicKey wsolMintStr).getD []

/-- Claim C7: for every receiver string destined for the account-model
chain, a string that parses as a Solana public key is encoded as exactly
32 bytes with the raw key bytes right-aligned (zero bytes padded on the
left), and a string that does not parse makes the encoder fail with the
invalid-address error. -/
theorem c7_encode_receiver_bytes32 (s : String) :
    (∀ raw, parseSolanaPublicKey s = some raw →
      encodeSolanaAddressToBytes32 s = .ok (List.replicate (32 - raw.length) 0 ++ raw) ∧
      (List.replicate (32 - raw.length) 0 ++ raw).length = 32) ∧
    (parseSolanaPublicKey s = none →
      encodeSolanaAddressToBytes32 s = .error ("Invalid Solana address: " ++ s)) := by
  constructor
  · intro raw hraw
    have hlen : raw.length = 32 := by
      unfold parseSolanaPublicKey at hraw
      cases hb : base58Decode s with
      | none => rw [hb] at hraw; exact absurd hraw (by simp)
      | some bytes =>
        rw [hb] at hraw
        dsimp only at hraw
        by_cases h32 : bytes.length = 32
        · rw [if_pos h32] at hraw
          injection hraw with h
          subst h
          exact h32
        · rw [if_neg h32] at hraw
          exact absurd hraw (by simp)
    refine ⟨by simp [encodeSolanaAddressToBytes32, hraw], ?_⟩
    simp only [List.length_append, List.length_replicate, hlen]
  · intro hnone
    simp [encodeSolanaAddressToBytes32, hnone]

/-- Witness for C7 at the WSOL mint address and at a non-parseable
string. -/
theorem c7_encode_receiver_bytes32_witness :
    parseSolanaPublicKey wsolMintStr = some wsolRaw ∧
    encodeSolanaAddressToBytes32 wsolMintStr =
      .ok (List.replicate (32 - wsolRaw.length) 0 ++ wsolRaw) ∧
    (List.replicate (32 - wsolRaw.length) 0 ++ wsolRaw).length = 32 ∧
    parseSolanaPublicKey "not-a-solana-address" = none ∧
    encodeSolanaAddressToBytes32 "not-a-solana-address" =
      .error "Invalid Solana address: not-a-solana-address" := by
  have hp : parseSolanaPublicKey wsolMintStr = some wsolRaw := by decide
  have hn : parseSolanaPublicKey "not-a-solana-address" = none := by decide
  have hok := (c7_encode_receiver_bytes32 wsolMintStr).1 wsolRaw hp
  have herr := (c7_encode_receiver_bytes32 "not-a-solana-address").2 hn
  exact ⟨hp, hok.1, hok.2, hn, herr⟩

/-- Claim C8: fee-token resolution is total: for every descriptor and
every selection (absent, named type, verbatim address, or garbage) the
backend resolver returns a concrete token reference, and any
unrecognized selection resolves to the descriptor's LINK reference. -/
theorem c8_fee_token_resolution_total (isAddr : String → Bool)
    (config : EVMChainConfig) (feeTokenType : Option String) :
    (Backend.getFeeTokenAddress isAddr config feeTokenType = zeroAddress ∨
     Backend.getFeeTokenAddress isAddr config feeTokenType = config.wrappedNativeAddress ∨
     Backend.getFeeTokenAddress isAddr config feeTokenType = config.linkTokenAddress ∨
     (∃ s, feeTokenType = some s ∧ isAddr s = true ∧
        Backend.getFeeTokenAddress isAddr config feeTokenType = s)) ∧
    (∀ s, feeTokenType = some s → s ≠ "native" → s ≠ "wrapped-native" → s ≠ "link" →
      isAddr s = false →
      Backend.getFeeTokenAddress isAddr config feeTokenType = config.linkTokenAddress) := by
  constructor
  · cases feeTokenType with
    | none => exact Or.inr (Or.inr (Or.inl rfl))
    | some s =>
      simp only [Backend.getFeeTokenAddress]
      split_ifs with h0 h1 h2 h3 h4
      · exact Or.inr (Or.inr (Or.inl rfl))
      · exact Or.inl rfl
      · exact Or.inr (Or.inl rfl)
      · exact Or.inr (Or.inr (Or.inl rfl))
      · exact Or.inr (Or.inr (Or.inr ⟨s, rfl, h4, by
          simp only [Backend.getFeeTokenAddress, if_neg h0, if_neg h1, if_neg h2,
            if_neg h3, if_pos h4]⟩))
      · exact Or.inr (Or.inr (Or.inl rfl))
  · intro s hs h1 h2 h3 h4
    subst hs
    by_cases h0 : s = ""
    · simp [Backend.getFeeTokenAddress, h0]
    · simp [Backend.getFeeTokenAddress, h0, h1, h2, h3, h4]

/-- Witness for C8 at a garbage selection on the Sepolia descriptor. -/
theorem c8_fee_token_resolution_witness :
    Backend.getFeeTokenAddress (fun _ => false) sepoliaConfig (some "garbage-selector") =
      sepoliaConfig.linkTokenAddress := by
  exact (c8_fee_token_resolution_total (fun _ => false) sepoliaConfig
    (some "garbage-selector")).2 "garbage-selector" rfl (by decide) (by decide)
    (by decide) rfl

/-- Claim C10, counterexample: the claim asserts the two resolvers
return different references for every non-lowercase form of a supported
fee-token name, but on the input `LINK` (a non-lowercase name of a
supported type, not an address) the backend falls through to the LINK
default and the frontend lowercases to the LINK branch, so both return
the same LINK reference. -/
theorem c10_link_uppercase_same_reference :
    Backend.getFeeTokenAddress isHexAddress sepoliaConfig (some "LINK") =
      Frontend.getEVMFeeTokenAddress isHexAddress sepoliaConfig (some "LINK") ∧
    Backend.getFeeTokenAddress isHexAddress sepoliaConfig (some "LINK") =
      sepoliaConfig.linkTokenAddress ∧
    isHexAddress "LINK" = false := by decide

/-- Claim C10, amended: the backend resolver matches the named fee-token
types case-sensitively, so every selection that names a supported type
in non-lowercase form and is not an address resolves to the LINK
default, while the frontend resolver lowercases first and returns the
named token's reference; the two therefore differ on non-lowercase
forms of `native` and `wrapped-native` (whenever the corresponding
references differ from LINK), and agree on non-lowercase forms of
`link`. -/
theorem c10_case_sensitive_backend_vs_frontend (isAddr : String → Bool)
    (config : EVMChainConfig) (s : String)
    (hlower : strToLower s = "native" ∨ strToLower s = "wrapped-native" ∨
      strToLower s = "link")
    (hn : s ≠ "native") (hw : s ≠ "wrapped-native") (hl : s ≠ "link")
    (haddr : isAddr s = false) :
    Backend.getFeeTokenAddress isAddr config (some s) = config.linkTokenAddress ∧
    (strToLower s = "native" →
      Frontend.getEVMFeeTokenAddress isAddr config (some s) = zeroAddress) ∧
    (strToLower s = "wrapped-native" →
      Frontend.getEVMFeeTokenAddress isAddr config (some s) = config.wrappedNativeAddress) ∧
    (strToLower s = "link" →
      Frontend.getEVMFeeTokenAddress isAddr config (some s) = config.linkTokenAddress) := by
  have hne : s ≠ "" := by
    intro he
    subst he
    rcases hlower with h | h | h <;> exact absurd h (by decide)
  refine ⟨by simp [Backend.getFeeTokenAddress, hne, hn, hw, hl, haddr], ?_, ?_, ?_⟩
  · intro h
    simp [Frontend.getEVMFeeTokenAddress, hne, h]
  · intro h
    simp [Frontend.getEVMFeeTokenAddress, hne, h]
  · intro h
    simp [Frontend.getEVMFeeTokenAddress, hne, h]

/-- Witness for the amended C10 at the selection `Native` on the Sepolia
descriptor: the backend returns the LINK reference, the frontend the
native zero-address sentinel, and the two differ. -/
theorem c10_case_sensitive_witness :
    Backend.getFeeTokenAddress isHexAddress sepoliaConfig (some "Native") =
      sepoliaConfig.linkTokenAddress ∧
    Frontend.getEVMFeeTokenAddress isHexAddress sepoliaConfig (some "Native") =
      zeroAddress ∧
    sepoliaConfig.linkTokenAddress ≠ zeroAddress := by
  have h := c10_case_sensitive_backend_vs_frontend isHexAddress sepoliaConfig "Native"
    (Or.inl (by decide)) (by decide) (by decide) (by decide) (by decide)
  exact ⟨h.1, h.2.1 (by decide), by decide⟩

/-- Claim C5, counterexample: for the unsupported account-model to
account-model combination the dispatcher returns a failure with the
unsupported-route reason but with no transfer record at all, so no
record in failed state exists, contrary to the claim. -/
theorem c5_unsupported_route_no_record :
    (Backend.executeTransfer testEnv "ccip-1000" "ts" solanaToSolanaRequest).1.success = false ∧
    (Backend.executeTransfer testEnv "ccip-1000" "ts" solanaToSolanaRequest).1.transfer = none ∧
    (Backend.executeTransfer testEnv "ccip-1000" "ts" solanaToSolanaRequest).1.error =
      some "Unsupported chain combination: solana-devnet to solana-devnet" := by decide

/-- Claim C5, amended: the dispatcher classifies the (source family,
destination family) pair and supports exactly the three combinations
EVM-to-EVM, EVM-to-account-model and account-model-to-EVM; the remaining
combination (account-model to account-model) yields a failure result
whose error is the unsupported-chain-combination message, with no
transfer record created and no network call issued. -/
theorem c5_dispatch (env : ExecEnv) (transferId timestamp : String)
    (request : CCIPTransferRequest) :
    (Backend.isEVMChain request.sourceChain = true →
      Backend.isEVMChain request.destinationChain = true →
      Backend.executeTransfer env transferId timestamp request =
        Backend.wrapResult (Backend.executeEVMToEVMTransfer env transferId timestamp request)) ∧
    (Backend.isEVMChain request.sourceChain = true →
      Backend.isSVMChain request.destinationChain = true →
      Backend.executeTransfer env transferId timestamp request =
        Backend.wrapResult (Backend.executeEVMToSVMTransfer env transferId timestamp request)) ∧
    (Backend.isSVMChain request.sourceChain = true →
      Backend.isEVMChain request.destinationChain = true →
      Backend.executeTransfer env transferId timestamp request =
        Backend.wrapResult (Backend.executeSVMToEVMTransfer env transferId timestamp request)) ∧
    (Backend.isSVMChain request.sourceChain = true →
      Backend.isSVMChain request.destinationChain = true →
      Backend.executeTransfer env transferId timestamp request =
        ({ success := false
           transfer := none
           error := some ("Unsupported chain combination: " ++
             chainIdString request.sourceChain ++ " to " ++
             chainIdString request.destinationChain) },
         emptyTrace)) := by
  cases request with
  | mk src dst recv amt ast ft =>
    cases src <;> cases dst <;>
      simp +decide [Backend.executeTransfer, Backend.isEVMChain, Backend.isSVMChain]

/-- Witness for the amended C5 at the account-model to account-model
request. -/
theorem c5_dispatch_witness :
    Backend.executeTransfer testEnv "ccip-1000" "ts" solanaToSolanaRequest =
      ({ success := false
         transfer := none
         error := some ("Unsupported chain combination: " ++
           chainIdString solanaToSolanaRequest.sourceChain ++ " to " ++
           chainIdString solanaToSolanaRequest.destinationChain) },
       emptyTrace) := by
  exact (c5_dispatch testEnv "ccip-1000" "ts" solanaToSolanaRequest).2.2.2 rfl rfl

/-- The environment variable holding the RPC endpoint of a chain
(`none` for the account-model chain, whose endpoint lives in the SVM
table). -/
def rpcEnvVar (env : EnvVars) : ChainId → Option String
  | .ethereumSepolia => env.ethereumSepoliaRpcUrl
  | .baseSepolia => env.baseSepoliaRpcUrl
  | .optimismSepolia => env.optimismSepoliaRpcUrl
  | .bscTestnet => env.bscTestnetRpcUrl
  | .arbitrumSepolia => env.arbitrumSepoliaRpcUrl
  | .sonicBlaze => env.sonicBlazeRpcUrl
  | .solanaDevnet => none

/-- Claim C6, counterexample: under an environment with no RPC variable
set, the registry lookup for Ethereum Sepolia still succeeds and returns
a descriptor whose RPC endpoint defaulted to the empty string, instead
of failing like an unknown chain as the claim requires. -/
theorem c6_missing_rpc_still_ok :
    rpcEnvVar emptyEnvVars ChainId.ethereumSepolia = none ∧
    (Backend.getEVMConfig emptyEnvVars ChainId.ethereumSepolia).toOption = some sepoliaConfig ∧
    sepoliaConfig.rpcUrl = "" := by decide

/-- Claim C6, amended: the lookup fails exactly for the chain id with no
configured EVM descriptor (the account-model chain); every other id
returns a descriptor even when its RPC environment variable is missing,
in which case the descriptor's RPC endpoint is silently defaulted to the
empty string. -/
theorem c6_registry_amended (env : EnvVars) (chainId : ChainId) :
    (chainId = ChainId.solanaDevnet →
      Backend.getEVMConfig env chainId =
        .error "Unsupported or unconfigured EVM chain ID: solana-devnet") ∧
    (chainId ≠ ChainId.solanaDevnet →
      ∃ config, Backend.getEVMConfig env chainId = .ok config ∧
        config.rpcUrl = jsOr (rpcEnvVar env chainId) "" ∧
        config.routerAddress ≠ "") := by
  cases chainId
  case solanaDevnet => exact ⟨fun _ => rfl, fun h => absurd rfl h⟩
  all_goals
    refine ⟨fun h => absurd h (by decide), fun _ => ?_⟩
    refine ⟨_, rfl, rfl, ?_⟩
    simp

/-- Witness for the amended C6: the empty environment and Ethereum
Sepolia. -/
theorem c6_registry_amended_witness :
    (∃ config, Backend.getEVMConfig emptyEnvVars ChainId.ethereumSepolia = .ok config ∧
      config.rpcUrl = jsOr (rpcEnvVar emptyEnvVars ChainId.ethereumSepolia) "" ∧
      config.routerAddress ≠ "") ∧
    Backend.getEVMConfig emptyEnvVars ChainId.solanaDevnet =
      .error "Unsupported or unconfigured EVM chain ID: solana-devnet" := by
  exact ⟨(c6_registry_amended emptyEnvVars ChainId.ethereumSepolia).2 (by decide),
    (c6_registry_amended emptyEnvVars ChainId.solanaDevnet).1 rfl⟩

/-- Claim C9, counterexample: for a request whose destination is the
account-model chain and whose receiver does not parse, but whose source
is also the account-model chain, the dispatcher returns the
unsupported-route failure with no transfer record at all, so no failed
record carrying an invalid-address error exists, contrary to the
claim's universal statement over all such requests. -/
theorem c9_svm_source_invalid_receiver_no_record :
    Backend.isSVMChain solanaToSolanaRequest.destinationChain = true ∧
    parseSolanaPublicKey solanaToSolanaRequest.receiver = none ∧
    (Backend.executeTransfer testEnv "ccip-1000" "ts" solanaToSolanaRequest).1.transfer = none ∧
    (Backend.executeTransfer testEnv "ccip-1000" "ts" solanaToSolanaRequest).1.error =
      some "Unsupported chain combination: solana-devnet to solana-devnet" := by decide

/-- Claim C9, amended: for every request from an EVM source chain to the
account-model chain whose receiver string is not a parseable native
address, and whose signer loads successfully, the dispatcher returns a
record in failed state carrying the invalid-Solana-address error, and
neither the fee-quote call nor the send call is issued; when the source
too is the account-model chain the route is instead rejected as
unsupported with no record (see the counterexample), still with zero
network calls. -/
theorem c9_invalid_receiver_amended (env : ExecEnv) (transferId timestamp : String)
    (request : CCIPTransferRequest) (w : String)
    (hsrc : Backend.isEVMChain request.sourceChain = true)
    (hdst : request.destinationChain = ChainId.solanaDevnet)
    (hrecv : parseSolanaPublicKey request.receiver = none)
    (hw : env.evmWallet = .ok w) :
    (Backend.executeTransfer env transferId timestamp request).1.success = false ∧
    ((Backend.executeTransfer env transferId timestamp request).1.transfer.map
      (fun t => t.status)) = some CCIPTransferStatus.failed ∧
    ((Backend.executeTransfer env transferId timestamp request).1.transfer.bind
      (fun t => t.error)) = some ("Invalid Solana address: " ++ request.receiver) ∧
    (Backend.executeTransfer env transferId timestamp request).1.error =
      some ("Invalid Solana address: " ++ request.receiver) ∧
    (Backend.executeTransfer env transferId timestamp request).2.feeCalls = [] ∧
    (Backend.executeTransfer env transferId timestamp request).2.sendCalls = [] := by
  cases request with
  | mk src dst recv amt ast ft =>
    subst hdst
    cases src
    case solanaDevnet => simp [Backend.isEVMChain] at hsrc
    all_goals
      simp +decide [Backend.executeTransfer, Backend.isEVMChain, Backend.isSVMChain,
        Backend.wrapResult, Backend.executeEVMToSVMTransfer, Backend.evmToSVMFailedResult,
        Backend.getEVMConfig, Backend.EVM_CONFIGS, Backend.getSVMConfig,
        encodeSolanaAddressToBytes32, hrecv, hw] at *

/-- Witness for the amended C9 at a concrete EVM-to-Solana request with
a non-parseable receiver, under collaborator outcomes in which the
wallet loads. -/
theorem c9_invalid_receiver_amended_witness :
    (Backend.executeTransfer testEnv "ccip-1000" "ts" evmToSvmBadReceiverRequest).1.success = false ∧
    ((Backend.executeTransfer testEnv "ccip-1000" "ts" evmToSvmBadReceiverRequest).1.transfer.map
      (fun t => t.status)) = some CCIPTransferStatus.failed ∧
    ((Backend.executeTransfer testEnv "ccip-1000" "ts" evmToSvmBadReceiverRequest).1.transfer.bind
      (fun t => t.error)) =
      some ("Invalid Solana address: " ++ evmToSvmBadReceiverRequest.receiver) ∧
    (Backend.executeTransfer testEnv "ccip-1000" "ts" evmToSvmBadReceiverRequest).1.error =
      some ("Invalid Solana address: " ++ evmToSvmBadReceiverRequest.receiver) ∧
    (Backend.executeTransfer testEnv "ccip-1000" "ts" evmToSvmBadReceiverRequest).2.feeCalls = [] ∧
    (Backend.executeTransfer testEnv "ccip-1000" "ts" evmToSvmBadReceiverRequest).2.sendCalls = [] := by
  exact c9_invalid_receiver_amended testEnv "ccip-1000" "ts" evmToSvmBadReceiverRequest
    "0x9d087fC03ae39b088326b67fA3C788236645b717" rfl rfl (by decide) rfl

/-- Claim C1: evaluation of the frontend service at the failing input.
A record is created in processing state at clock reading 1000 and the
backend fetch then throws; the catch block searches the store for the id
built from a fresh clock reading (1001), finds nothing, and so the
stored record keeps status processing after the call returns, while the
returned result carries no transfer record; had the catch run within the
same millisecond (1000) the record would have been marked failed. -/
theorem c1_frontend_catch_leaves_processing :
    ((Frontend.executeTransfer evmToEvmRequest
        "0x9d087fC03ae39b088326b67fA3C788236645b717" 1000
        (.fetchRejected "network error") 1001 1001 []).2.map
      (fun t => t.status)) = [CCIPTransferStatus.processing] ∧
    (Frontend.executeTransfer evmToEvmRequest
        "0x9d087fC03ae39b088326b67fA3C788236645b717" 1000
        (.fetchRejected "network error") 1001 1001 []).1.success = false ∧
    (Frontend.executeTransfer evmToEvmRequest
        "0x9d087fC03ae39b088326b67fA3C788236645b717" 1000
        (.fetchRejected "network error") 1001 1001 []).1.transfer = none ∧
    (Frontend.executeTransfer evmToEvmRequest
        "0x9d087fC03ae39b088326b67fA3C788236645b717" 1000
        (.fetchRejected "network error") 1001 1001 []).1.error = some "network error" ∧
    ((Frontend.executeTransfer evmToEvmRequest
        "0x9d087fC03ae39b088326b67fA3C788236645b717" 1000
        (.fetchRejected "network error") 1000 1000 []).2.map
      (fun t => t.status)) = [CCIPTransferStatus.failed] := by decide

/-- Claim C2: evaluation of the backend dispatcher on two runs that
differ only in the `Math.random` stream, every chain interaction (and in
particular the submission receipt) being identical.  Both runs complete;
the transaction hash is the receipt hash in both, but the cross-chain
message ids differ and equal the fabricated random hex string, so the
message id is drawn from the random-number source and not extracted from
the receipt.  On the account-model-to-EVM path even the transaction hash
differs between the two streams, ie both identifiers are fabricated
there. -/
theorem c2_messageId_depends_on_rng :
    ((Backend.executeTransfer testEnv "ccip-1000" "ts" evmToEvmRequest).1.transfer.map
      (fun t => t.status)) = some CCIPTransferStatus.completed ∧
    ((Backend.executeTransfer testEnv "ccip-1000" "ts" evmToEvmRequest).1.transfer.bind
      (fun t => t.txHash)) =
      some "0x54e1a1fabc1e4cbf9f8ad7a2b1c2d3e4f5061728394a5b6c7d8e9f0112233445" ∧
    ((Backend.executeTransfer testEnvAltRng "ccip-1000" "ts" evmToEvmRequest).1.transfer.bind
      (fun t => t.txHash)) =
      ((Backend.executeTransfer testEnv "ccip-1000" "ts" evmToEvmRequest).1.transfer.bind
        (fun t => t.txHash)) ∧
    ((Backend.executeTransfer testEnv "ccip-1000" "ts" evmToEvmRequest).1.transfer.bind
      (fun t => t.messageId)) = some ("0x" ++ randomHex64 testEnv.rng 0) ∧
    ((Backend.executeTransfer testEnv "ccip-1000" "ts" evmToEvmRequest).1.transfer.bind
      (fun t => t.messageId)) ≠
      ((Backend.executeTransfer testEnvAltRng "ccip-1000" "ts" evmToEvmRequest).1.transfer.bind
        (fun t => t.messageId)) ∧
    ((Backend.executeTransfer testEnv "ccip-1000" "ts" svmToEvmRequest).1.transfer.map
      (fun t => t.status)) = some CCIPTransferStatus.completed ∧
    ((Backend.executeTransfer testEnv "ccip-1000" "ts" svmToEvmRequest).1.transfer.bind
      (fun t => t.txHash)) ≠
      ((Backend.executeTransfer testEnvAltRng "ccip-1000" "ts" svmToEvmRequest).1.transfer.bind
        (fun t => t.txHash)) := by decide

/-- Claim C3: evaluation of the backend dispatcher at a request whose
fee token resolves to the LINK reference (not the native zero-address
sentinel).  The send call still attaches the full quoted fee (5) as
native value, so the two payment mechanisms are not mutually exclusive
as the claim requires. -/
theorem c3_native_value_attached_for_link_fee :
    ((Backend.executeTransfer testEnv "ccip-1000" "ts" linkFeeRequest).2.sendCalls.map
      (fun c => c.message.feeToken)) = [sepoliaConfig.linkTokenAddress] ∧
    sepoliaConfig.linkTokenAddress ≠ zeroAddress ∧
    ((Backend.executeTransfer testEnv "ccip-1000" "ts" linkFeeRequest).2.sendCalls.map
      (fun c => c.value)) = [5] ∧
    ((Backend.executeTransfer testEnv "ccip-1000" "ts" evmToEvmRequest).2.sendCalls.map
      (fun c => c.message.feeToken)) = [zeroAddress] ∧
    ((Backend.executeTransfer testEnv "ccip-1000" "ts" evmToEvmRequest).2.sendCalls.map
      (fun c => c.value)) = [5] := by decide

/-- Claim C4: evaluation of the backend dispatcher at two requests that
differ only in the asset field (`LINK` versus `BnM`).  Both produce the
same token-amount pair: the token is always the source chain's BnM
token address, not the reference the asset resolver returns for the
requested asset, and the amount is always the request amount scaled by a
constant 18 decimals rather than a looked-up decimal count. -/
theorem c4_token_ignores_asset_and_decimals_fixed :
    ((Backend.executeTransfer testEnv "ccip-1000" "ts" linkAssetRequest).2.sendCalls.map
      (fun c => c.message.tokenAmounts)) =
      [[{ token := sepoliaConfig.bnmTokenAddress, amount := 10 * 10 ^ 18 }]] ∧
    ((Backend.executeTransfer testEnv "ccip-1000" "ts" linkAssetRequest).2.sendCalls.map
      (fun c => c.message.tokenAmounts)) =
      ((Backend.executeTransfer testEnv "ccip-1000" "ts" evmToEvmRequest).2.sendCalls.map
        (fun c => c.message.tokenAmounts)) ∧
    (Frontend.getAssetAddress ChainId.ethereumSepolia AssetType.link).toOption =
      some sepoliaConfig.linkTokenAddress ∧
    sepoliaConfig.bnmTokenAddress ≠ sepoliaConfig.linkTokenAddress := by decide
